import Mathlib

/-!
Shallow embedding of `analysis_utils.py` (repository GEOS685).

The module defines four pandas/matplotlib helpers:
`load_dataset`, `group_dataset`, `visualize_dataset` (declared twice; only the
second, fixed-column variant is reachable) and `convert_area`.

Modelling choices:
* A pandas `DataFrame` is a list of named columns; each column carries a
  dtype tag (a string, e.g. "object", "int64", "category") and a list of
  cell values.  Cell values are strings or exact rationals (Python floats
  are modelled as exact rationals).
* `df[c] = df[c].astype("category")` rewrites the column named `c` with
  dtype "category", keeping the values.  In pandas this assignment happens
  in place on the very DataFrame object the caller supplied, so after the
  call the caller's object holds the coerced columns; `callerTableAfterCoercion`
  records that in-place effect.
* `pd.read_csv` is an external input: the functions take an explicit
  `readCsv : String -> DataFrame` environment argument.
* `df.groupby(col, observed=True)` is modelled as the list of pairs
  (observed key, indices of the rows carrying that key), keys in first-seen
  order (pandas sorts keys; key order is irrelevant to the partition facts
  proved here).
* Raised `ValueError`s become `Except.error msg`.  Quote characters inside
  the Python message literals are elided.
* `convert_area` is modelled twice: over exact rationals (the idealized
  arithmetic of the conversion algorithm), and over a model of IEEE-754
  binary64 (`F64`, `convert_area_f64`) faithful to Python float semantics
  where rounding and overflow matter: round to nearest, ties to even,
  overflow to infinity, and a raised `ZeroDivisionError` on division by
  zero.  The binary64 model collapses -0.0 into 0.0 and carries a single
  NaN; neither arises in the facts proved here.
* Plot rendering is a side effect; a plot is modelled by a descriptor
  recording the chart kind and the columns used.
-/

inductive Value where
  | str (s : String)
  | num (q : ℚ)
deriving DecidableEq, Repr

/-- A pandas column: a dtype tag and the cell values. -/
structure Column where
  dtype : String
  values : List Value
deriving DecidableEq, Repr

/-- A pandas DataFrame: named columns in order. -/
structure DataFrame where
  cols : List (String × Column)
deriving DecidableEq, Repr

/-- Model of `df.columns`. -/
def DataFrame.colNames (df : DataFrame) : List String :=
  df.cols.map Prod.fst

/-- Model of `df[c]`: the first column named `c`, if any. -/
def DataFrame.col? (df : DataFrame) (c : String) : Option Column :=
  (df.cols.find? (fun p => p.1 == c)).map Prod.snd

/-- The cell values of column `c` (empty when the column is absent). -/
def colValues (df : DataFrame) (c : String) : List Value :=
  match df.col? c with
  | some col => col.values
  | none => []

/-- Model of `series.astype("category")`: same values, categorical dtype. -/
def astypeCategory (col : Column) : Column :=
  Column.mk "category" col.values

/-- Model of the assignment `df[c] = col`: replace the column named `c`. -/
def DataFrame.setCol (df : DataFrame) (c : String) (col : Column) : DataFrame :=
  DataFrame.mk (df.cols.map (fun p => if p.1 = c then (p.1, col) else p))

/-- The dtype-coercion block shared by every function of the module:
`if "Ecosystem" in df.columns: df["Ecosystem"] = df["Ecosystem"].astype("category")`
and the same for `"Season"`. -/
def coerceCats (df : DataFrame) : DataFrame :=
  let df1 :=
    match df.col? "Ecosystem" with
    | some col => df.setCol "Ecosystem" (astypeCategory col)
    | none => df
  match df1.col? "Season" with
  | some col => df1.setCol "Season" (astypeCategory col)
  | none => df1

/-- In pandas the coercion block assigns into the caller's DataFrame object
in place, so when the caller supplied the table and the block runs, the
caller's object afterwards is the coerced frame. -/
def callerTableAfterCoercion (df : DataFrame) : DataFrame :=
  coerceCats df

/-- Model of `load_dataset(csv_path=None, df=None)` (lines 4-31 of the source). -/
def load_dataset (readCsv : String → DataFrame) (csv_path : Option String)
    (df : Option DataFrame) : Except String DataFrame :=
  match df, csv_path with
  | none, none => .error "Provide either a CSV file path or a DataFrame."
  | none, some p => .ok (coerceCats (readCsv p))
  | some d, _ => .ok (coerceCats d)

/-- Python truthiness of an optional string: `None` and `""` are falsy. -/
def truthyStr : Option String → Bool
  | none => false
  | some s => !(s == "")

/-- Row indices of `vs` holding the value `k`. -/
def indicesWith (vs : List Value) (k : Value) : List ℕ :=
  (List.range vs.length).filter (fun i => decide (vs.getD i (Value.str "") = k))

/-- Model of `df.groupby(c, observed=True)`: each observed distinct value of column
`c` paired with the indices of the rows carrying it. -/
def groupby (df : DataFrame) (c : String) : List (Value × List ℕ) :=
  (colValues df c).dedup.map (fun k => (k, indicesWith (colValues df c) k))

/-- Result of `group_dataset`: the coerced frame, or a grouped partition. -/
inductive GroupResult where
  | table (df : DataFrame)
  | grouped (groups : List (Value × List ℕ))
deriving DecidableEq, Repr

/-- Model of `group_dataset(csv_path=None, df=None, group_by=None)` (lines 33-67). -/
def group_dataset (readCsv : String → DataFrame) (csv_path : Option String)
    (df : Option DataFrame) (group_by : Option String) :
    Except String GroupResult :=
  match df, csv_path with
  | none, none => .error "Provide either a CSV file path or a DataFrame."
  | none, some p => group_dataset.afterLoad (readCsv p) group_by
  | some d, _ => group_dataset.afterLoad d group_by
where
  /-- The body after loading: coerce dtypes, then `if group_by:` branch. -/
  afterLoad (d : DataFrame) (group_by : Option String) :
      Except String GroupResult :=
    let d' := coerceCats d
    if truthyStr group_by then
      match group_by with
      | some g =>
          if g ∈ d'.colNames then .ok (.grouped (groupby d' g))
          else .error "group_by must be a column in DataFrame."
      | none => .ok (.table d')
    else
      .ok (.table d')

/-- A rendered chart, by kind and columns used. -/
inductive Plot where
  | boxplot (value_col : String) (by_col : String)
  | scatter (x_col : String) (y_col : String) (hue : Option String)
deriving DecidableEq, Repr

/-- The reachable `visualize_dataset(csv_path=None, df=None, group_by="Ecosystem")`
(lines 122-190; the second definition shadows the first).  The call either
raises or displays plots of the coerced frame; the model returns the coerced
frame together with the plot descriptors in display order. -/
def visualize_dataset (readCsv : String → DataFrame) (csv_path : Option String)
    (df : Option DataFrame) (group_by : Option String) :
    Except String (DataFrame × List Plot) :=
  match df, csv_path with
  | none, none => .error "Provide either a CSV file path or a DataFrame."
  | none, some p => visualize_dataset.afterLoad (readCsv p) group_by
  | some d, _ => visualize_dataset.afterLoad d group_by
where
  /-- The body after loading: validate `group_by`, coerce dtypes, plot. -/
  afterLoad (d : DataFrame) (group_by : Option String) :
      Except String (DataFrame × List Plot) :=
    if group_by = some "Ecosystem" ∨ group_by = some "Season" ∨ group_by = none
    then
      let d' := coerceCats d
      let box : List Plot :=
        match group_by with
        | some g => if g == "" then [] else [.boxplot "flux_gm2yr" g]
        | none => []
      .ok (d', box ++ [.scatter "P_conc" "Ca_conc" group_by,
                       .scatter "P_conc" "flux_gm2yr" group_by])
    else
      .error "group_by must be Ecosystem, Season, or None"

/-- Conversion factors to square meters (lines 223-228). -/
def factors_to_m2 : List (String × ℚ) :=
  [("m2", 1), ("km2", 1000000), ("hectare", 10000), ("acre", 4046.8564224)]

/-- Model of the Python `str.lower()` call on the characters of the string (the unit names
here are ASCII, where `.lower()` is exactly character-wise lowercasing). -/
def strLower (s : String) : String :=
  String.mk (s.data.map Char.toLower)

/-- Model of `convert_area(value, from_unit, to_unit)` (lines 192-240). -/
def convert_area (value : ℚ) (from_unit to_unit : String) : Except String ℚ :=
  let fu := strLower from_unit
  let tu := strLower to_unit
  match factors_to_m2.lookup fu, factors_to_m2.lookup tu with
  | some f, some t => .ok (value * f / t)
  | _, _ => .error "Units must be one of: m2, km2, hectare, acre"

/-- The spec's recognized unit set, lowercase spellings. -/
def specUnits : List String := ["m2", "km2", "acre", "hectare"]

/-! ### A model of IEEE-754 binary64 (Python float) arithmetic -/

/-- Largest finite binary64 value, `(2^53 - 1) * 2^971`. -/
def maxDouble : ℚ := (2 ^ 53 - 1) * 2 ^ 971

/-- The rational `q` is exactly representable as a finite binary64 value:
an integer significand below `2^53` times a power of two no smaller than
the subnormal quantum `2^-1074`, within the finite range. -/
def reprDouble (q : ℚ) : Prop :=
  ∃ (m e : ℤ), |m| < 2 ^ 53 ∧ -1074 ≤ e ∧ (m : ℚ) * (2 : ℚ) ^ e = q ∧
    |q| ≤ maxDouble

/-- A binary64 value: a finite value (as the exact rational it denotes),
an infinity, or NaN.  Negative zero is collapsed into `finite 0`. -/
inductive F64 where
  | finite (q : ℚ)
  | inf
  | neginf
  | nan
deriving DecidableEq, Repr

/-- Nearest integer to `x`, ties to the even neighbour. -/
def roundHalfEven (x : ℚ) : ℤ :=
  let n := ⌊x⌋
  let r := x - n
  if r < 1 / 2 then n
  else if 1 / 2 < r then n + 1
  else if n % 2 = 0 then n else n + 1

/-- Round to the nearest binary64 quantum, ties to even, with no exponent
ceiling: the scale is `2^(52 - e)` for a normal magnitude `2^e ≤ |x|`, and
the fixed subnormal quantum `2^-1074` below the normal range. -/
def rnUnbounded (x : ℚ) : ℚ :=
  if x = 0 then 0
  else
    let e : ℤ := Int.log 2 |x|
    let k : ℤ := if e < -1022 then 1074 else 52 - e
    (roundHalfEven (x * (2 : ℚ) ^ k) : ℚ) / (2 : ℚ) ^ k

/-- Round a real result into binary64: magnitudes from the overflow
threshold `2^1024 - 2^970` upward (whose rounding would reach `2^1024`)
become infinities, the rest round to the nearest finite value. -/
def rnF64 (x : ℚ) : F64 :=
  if 2 ^ 1024 - 2 ^ 970 ≤ x then .inf
  else if x ≤ -(2 ^ 1024 - 2 ^ 970) then .neginf
  else .finite (rnUnbounded x)

/-- Binary64 multiplication: finite products are rounded (overflowing to
infinity), zero times infinity is NaN, and NaN propagates. -/
def fmul : F64 → F64 → F64
  | .nan, _ => .nan
  | .finite _, .nan => .nan
  | .inf, .nan => .nan
  | .neginf, .nan => .nan
  | .finite a, .finite b => rnF64 (a * b)
  | .finite a, .inf => if a = 0 then .nan else if 0 < a then .inf else .neginf
  | .finite a, .neginf =>
      if a = 0 then .nan else if 0 < a then .neginf else .inf
  | .inf, .finite b => if b = 0 then .nan else if 0 < b then .inf else .neginf
  | .neginf, .finite b =>
      if b = 0 then .nan else if 0 < b then .neginf else .inf
  | .inf, .inf => .inf
  | .inf, .neginf => .neginf
  | .neginf, .inf => .neginf
  | .neginf, .neginf => .inf

/-- Python float division: a zero divisor raises `ZeroDivisionError`
(unlike bare IEEE), finite quotients are rounded (overflowing to
infinity), a finite value over an infinity is zero, an infinity over an
infinity is NaN, and NaN propagates. -/
def fdiv : F64 → F64 → Except String F64
  | .nan, _ => .ok .nan
  | .finite _, .nan => .ok .nan
  | .inf, .nan => .ok .nan
  | .neginf, .nan => .ok .nan
  | .finite a, .finite b =>
      if b = 0 then .error "float division by zero"
      else .ok (rnF64 (a / b))
  | .finite _, .inf => .ok (.finite 0)
  | .finite _, .neginf => .ok (.finite 0)
  | .inf, .finite b =>
      if b = 0 then .error "float division by zero"
      else if 0 < b then .ok .inf else .ok .neginf
  | .neginf, .finite b =>
      if b = 0 then .error "float division by zero"
      else if 0 < b then .ok .neginf else .ok .inf
  | .inf, .inf => .ok .nan
  | .inf, .neginf => .ok .nan
  | .neginf, .inf => .ok .nan
  | .neginf, .neginf => .ok .nan

/-- The conversion-factor table as the binary64 values Python holds:
1, 10^6 and 10^4 are exactly representable, while the source literal
4046.8564224 is parsed to the nearest double. -/
def factorsF64 : List (String × F64) :=
  [("m2", .finite 1), ("km2", .finite 1000000), ("hectare", .finite 10000),
   ("acre", .finite (rnUnbounded 4046.8564224))]

/-- Model of `convert_area` over binary64 arithmetic: the same lookup and
validation as the rational model, with the multiply and divide performed
in floating point as the source does. -/
def convert_area_f64 (value : F64) (from_unit to_unit : String) :
    Except String F64 :=
  let fu := strLower from_unit
  let tu := strLower to_unit
  match factorsF64.lookup fu, factorsF64.lookup tu with
  | some f, some t => fdiv (fmul value f) t
  | _, _ => .error "Units must be one of: m2, km2, hectare, acre"

deriving instance DecidableEq for Except

/-! ### Helper lemmas about columns and the coercion block -/

lemma fst_setCol_fun (c' : String) (col : Column) (p : String × Column) :
    ((if p.1 = c' then (p.1, col) else p) : String × Column).1 = p.1 := by
  split <;> rfl

lemma find?_map_set_ne (l : List (String × Column)) {c c' : String}
    (col : Column) (h : c ≠ c') :
    (l.map (fun p => if p.1 = c' then (p.1, col) else p)).find?
        (fun p => p.1 == c)
      = l.find? (fun p => p.1 == c) := by
  induction l with
  | nil => rfl
  | cons p l ih =>
    simp only [List.map_cons, List.find?_cons]
    cases hpc : (p.1 == c) with
    | true =>
      have hp : p.1 = c := by simpa using hpc
      have hne : ¬ p.1 = c' := by rw [hp]; exact h
      simp [hne, hpc]
    | false =>
      by_cases hp : p.1 = c'
      · have hcc : (c' == c) = false := by
          simp only [beq_eq_false_iff_ne, ne_eq]
          exact fun hc => h hc.symm
        simp [hp, hcc, ih]
      · simp [hp, hpc, ih]

lemma find?_map_set_eq (l : List (String × Column)) {c : String} (col : Column)
    (h : (l.find? (fun p => p.1 == c)).isSome) :
    (l.map (fun p => if p.1 = c then (p.1, col) else p)).find?
        (fun p => p.1 == c)
      = some (c, col) := by
  induction l with
  | nil => simp [List.find?] at h
  | cons p l ih =>
    simp only [List.map_cons, List.find?_cons]
    cases hpc : (p.1 == c) with
    | true =>
      have hp : p.1 = c := by simpa using hpc
      simp [hp]
    | false =>
      have hp : ¬ p.1 = c := by simpa using hpc
      have h' : (l.find? (fun p => p.1 == c)).isSome := by
        simpa [List.find?_cons, hpc] using h
      simp [hp, hpc, ih h']

lemma col?_setCol_ne (df : DataFrame) {c c' : String} (col : Column)
    (h : c ≠ c') : (df.setCol c' col).col? c = df.col? c := by
  simp [DataFrame.col?, DataFrame.setCol, find?_map_set_ne df.cols col h]

lemma col?_setCol_eq (df : DataFrame) {c : String} (col : Column)
    (h : (df.col? c).isSome) : (df.setCol c col).col? c = some col := by
  have h' : (df.cols.find? (fun p => p.1 == c)).isSome := by
    simpa [DataFrame.col?] using h
  simp [DataFrame.col?, DataFrame.setCol, find?_map_set_eq df.cols col h']

lemma colNames_setCol (df : DataFrame) (c : String) (col : Column) :
    (df.setCol c col).colNames = df.colNames := by
  simp only [DataFrame.colNames, DataFrame.setCol, List.map_map]
  congr 1
  funext p
  simp [Function.comp, fst_setCol_fun]

lemma col?_isSome_iff (df : DataFrame) (c : String) :
    (df.col? c).isSome ↔ c ∈ df.colNames := by
  simp only [DataFrame.col?, Option.isSome_map', List.find?_isSome,
    DataFrame.colNames, List.mem_map]
  constructor
  · rintro ⟨p, hp, hpc⟩
    exact ⟨p, hp, by simpa using hpc⟩
  · rintro ⟨p, hp, hpc⟩
    exact ⟨p, hp, by simpa using hpc⟩

lemma coerceCats_col?_other (df : DataFrame) {c : String}
    (hE : c ≠ "Ecosystem") (hS : c ≠ "Season") :
    (coerceCats df).col? c = df.col? c := by
  unfold coerceCats
  cases hEco : df.col? "Ecosystem" with
  | some colE =>
    simp only [hEco]
    have h1 : (df.setCol "Ecosystem" (astypeCategory colE)).col? c
        = df.col? c := col?_setCol_ne df _ hE
    cases hSea : (df.setCol "Ecosystem" (astypeCategory colE)).col? "Season" with
    | some colS =>
      simp only [hSea]
      rw [col?_setCol_ne _ _ hS, h1]
    | none => simpa [hSea] using h1
  | none =>
    simp only [hEco]
    cases hSea : df.col? "Season" with
    | some colS =>
      simp only [hSea]
      exact col?_setCol_ne df _ hS
    | none => simp [hSea]

lemma coerceCats_col?_eco (df : DataFrame) {colE : Column}
    (hEco : df.col? "Ecosystem" = some colE) :
    (coerceCats df).col? "Ecosystem" = some (astypeCategory colE) := by
  unfold coerceCats
  simp only [hEco]
  have h1 : (df.setCol "Ecosystem" (astypeCategory colE)).col? "Ecosystem"
      = some (astypeCategory colE) :=
    col?_setCol_eq df _ (by simp [hEco])
  cases hSea : (df.setCol "Ecosystem" (astypeCategory colE)).col? "Season" with
  | some colS =>
    simp only [hSea]
    rw [col?_setCol_ne _ _ (by decide), h1]
  | none => simpa [hSea] using h1

lemma coerceCats_col?_sea (df : DataFrame) {colS : Column}
    (hSea : df.col? "Season" = some colS) :
    (coerceCats df).col? "Season" = some (astypeCategory colS) := by
  unfold coerceCats
  cases hEco : df.col? "Ecosystem" with
  | some colE =>
    simp only [hEco]
    have h1 : (df.setCol "Ecosystem" (astypeCategory colE)).col? "Season"
        = some colS := by
      rw [col?_setCol_ne _ _ (by decide), hSea]
    simp only [h1]
    exact col?_setCol_eq _ _ (by simp [h1])
  | none =>
    simp only [hEco, hSea]
    exact col?_setCol_eq df _ (by simp [hSea])

lemma coerceCats_col?_eco_none (df : DataFrame)
    (hEco : df.col? "Ecosystem" = none) :
    (coerceCats df).col? "Ecosystem" = none := by
  unfold coerceCats
  simp only [hEco]
  cases hSea : df.col? "Season" with
  | some colS =>
    simp only [hSea]
    rw [col?_setCol_ne _ _ (by decide), hEco]
  | none => simp [hSea, hEco]

lemma coerceCats_col?_sea_none (df : DataFrame)
    (hSea : df.col? "Season" = none) :
    (coerceCats df).col? "Season" = none := by
  unfold coerceCats
  cases hEco : df.col? "Ecosystem" with
  | some colE =>
    simp only [hEco]
    have h1 : (df.setCol "Ecosystem" (astypeCategory colE)).col? "Season"
        = none := by
      rw [col?_setCol_ne _ _ (by decide), hSea]
    simp [h1]
  | none => simp [hEco, hSea]

lemma coerceCats_colNames (df : DataFrame) :
    (coerceCats df).colNames = df.colNames := by
  unfold coerceCats
  cases hEco : df.col? "Ecosystem" with
  | some colE =>
    simp only [hEco]
    cases hSea : (df.setCol "Ecosystem" (astypeCategory colE)).col? "Season" with
    | some colS => simp [colNames_setCol]
    | none => simp [colNames_setCol]
  | none =>
    simp only [hEco]
    cases hSea : df.col? "Season" with
    | some colS => simp [colNames_setCol]
    | none => simp

lemma coerceCats_colValues (df : DataFrame) (c : String) :
    colValues (coerceCats df) c = colValues df c := by
  by_cases hE : c = "Ecosystem"
  · subst hE
    cases hEco : df.col? "Ecosystem" with
    | some colE =>
      simp [colValues, coerceCats_col?_eco df hEco, hEco, astypeCategory]
    | none => simp [colValues, coerceCats_col?_eco_none df hEco, hEco]
  · by_cases hS : c = "Season"
    · subst hS
      cases hSea : df.col? "Season" with
      | some colS =>
        simp [colValues, coerceCats_col?_sea df hSea, hSea, astypeCategory]
      | none => simp [colValues, coerceCats_col?_sea_none df hSea, hSea]
    · simp [colValues, coerceCats_col?_other df hE hS]

/-! ### Helper lemmas about grouping and unit lookup -/

lemma mem_indicesWith {vs : List Value} {k : Value} {i : ℕ} :
    i ∈ indicesWith vs k ↔ i < vs.length ∧ vs.getD i (Value.str "") = k := by
  simp [indicesWith, List.mem_filter, List.mem_range]

lemma map_fst_pair (l : List Value) (f : Value → List ℕ) :
    (l.map (fun k => (k, f k))).map Prod.fst = l := by
  induction l with
  | nil => rfl
  | cons a l ih => simp [ih]

lemma groupby_keys (df : DataFrame) (c : String) :
    (groupby df c).map Prod.fst = (colValues df c).dedup := by
  simp only [groupby]
  exact map_fst_pair _ _

lemma lookup_m2 : factors_to_m2.lookup (strLower "m2") = some 1 := by
  have h : strLower "m2" = "m2" := by decide
  rw [h]; simp [factors_to_m2, List.lookup]

lemma lookup_km2 : factors_to_m2.lookup (strLower "km2") = some 1000000 := by
  have h : strLower "km2" = "km2" := by decide
  rw [h]; simp [factors_to_m2, List.lookup]

lemma lookup_hectare :
    factors_to_m2.lookup (strLower "hectare") = some 10000 := by
  have h : strLower "hectare" = "hectare" := by decide
  rw [h]; simp [factors_to_m2, List.lookup]

lemma lookup_acre :
    factors_to_m2.lookup (strLower "acre") = some 4046.8564224 := by
  have h : strLower "acre" = "acre" := by decide
  rw [h]; simp [factors_to_m2, List.lookup]

lemma lookup_keys_isSome (l : List (String × ℚ)) (s : String) :
    (l.lookup s).isSome ↔ s ∈ l.map Prod.fst := by
  induction l with
  | nil => simp [List.lookup]
  | cons p l ih =>
    obtain ⟨k, v⟩ := p
    simp only [List.lookup, List.map_cons, List.mem_cons]
    cases hpc : s == k with
    | true =>
      have hk : s = k := by simpa using hpc
      simp [hpc, hk]
    | false =>
      have hk : ¬ s = k := by simpa using hpc
      simp [hpc, hk, ih]

lemma lookup_isSome_iff (s : String) :
    (factors_to_m2.lookup s).isSome ↔ s ∈ specUnits := by
  rw [lookup_keys_isSome]
  simp only [factors_to_m2, specUnits, List.map_cons, List.map_nil,
    List.mem_cons, List.not_mem_nil, or_false]
  tauto

/-! ### Concrete frames used in the closed instances below -/

/-- A three-row sample frame with the documented columns of the module. -/
def sampleDf : DataFrame :=
  DataFrame.mk
    [("ID", Column.mk "int64" [Value.num 1, Value.num 2, Value.num 3]),
     ("Ecosystem", Column.mk "object"
        [Value.str "Forest", Value.str "Wetland", Value.str "Forest"]),
     ("Season", Column.mk "object"
        [Value.str "Summer", Value.str "Winter", Value.str "Summer"]),
     ("P_conc", Column.mk "int64" [Value.num 4, Value.num 5, Value.num 6])]

/-- A one-column frame whose Ecosystem dtype is not categorical. -/
def objDf : DataFrame :=
  DataFrame.mk [("Ecosystem", Column.mk "object" [Value.str "Forest"])]

/-! ### The claims -/

/-- C1: for every table with an `Ecosystem` column, `group_dataset` with
`group_by="Ecosystem"` returns the partition of the rows of the table keyed
by the distinct observed values of that column: the key list is exactly the
observed distinct values, each row index below the column length lies in
exactly one partition, and a row lies in the partition whose key is the
Ecosystem value of that row. -/
theorem C1_group_dataset_ecosystem_partition (rc : String → DataFrame)
    (df : DataFrame) (h : "Ecosystem" ∈ df.colNames) :
    group_dataset rc none (some df) (some "Ecosystem")
        = .ok (.grouped (groupby (coerceCats df) "Ecosystem"))
    ∧ (groupby (coerceCats df) "Ecosystem").map Prod.fst
        = (colValues df "Ecosystem").dedup
    ∧ (∀ i, i < (colValues df "Ecosystem").length →
        ∃! p : Value × List ℕ,
          p ∈ groupby (coerceCats df) "Ecosystem" ∧ i ∈ p.2)
    ∧ (∀ p ∈ groupby (coerceCats df) "Ecosystem", ∀ i ∈ p.2,
        (colValues df "Ecosystem").getD i (Value.str "") = p.1) := by
  have hv : colValues (coerceCats df) "Ecosystem"
      = colValues df "Ecosystem" := coerceCats_colValues df "Ecosystem"
  have hmem : "Ecosystem" ∈ (coerceCats df).colNames := by
    rw [coerceCats_colNames]; exact h
  refine ⟨?_, ?_, ?_, ?_⟩
  · simp [group_dataset, group_dataset.afterLoad, truthyStr, hmem]
  · rw [groupby_keys, hv]
  · intro i hi
    have hi' : i < (colValues (coerceCats df) "Ecosystem").length := by
      rw [hv]; exact hi
    set vs := colValues (coerceCats df) "Ecosystem" with hvs
    refine ⟨(vs.getD i (Value.str ""),
             indicesWith vs (vs.getD i (Value.str ""))), ⟨?_, ?_⟩, ?_⟩
    · simp only [groupby, ← hvs]
      refine List.mem_map_of_mem _ (List.mem_dedup.mpr ?_)
      rw [List.getD_eq_getElem vs _ hi']
      exact List.getElem_mem hi'
    · exact mem_indicesWith.mpr ⟨hi', rfl⟩
    · rintro ⟨k', idx'⟩ ⟨hp', hmem'⟩
      simp only [groupby, ← hvs, List.mem_map] at hp'
      obtain ⟨k, _, hpk⟩ := hp'
      rw [Prod.ext_iff] at hpk
      dsimp only at hpk hmem'
      obtain ⟨hk1, hk2⟩ := hpk
      subst hk1
      subst hk2
      have hval : vs.getD i (Value.str "") = k :=
        (mem_indicesWith.mp hmem').2
      simp only [Prod.mk.injEq]
      exact ⟨hval.symm, by rw [hval]⟩
  · intro p hp i hip
    simp only [groupby, List.mem_map] at hp
    obtain ⟨k, _, hpk⟩ := hp
    rw [Prod.ext_iff] at hpk
    obtain ⟨hk1, hk2⟩ := hpk
    have := mem_indicesWith.mp (hk2 ▸ hip)
    rw [← hv]
    rw [← hk1]
    exact this.2

/-- Witness for C1 at a concrete three-row frame. -/
theorem C1_group_dataset_ecosystem_partition_witness :
    group_dataset (fun _ => sampleDf) none (some sampleDf) (some "Ecosystem")
      = .ok (.grouped (groupby (coerceCats sampleDf) "Ecosystem")) :=
  (C1_group_dataset_ecosystem_partition (fun _ => sampleDf) sampleDf
    (by decide)).1

/-- C2 counterexample: the exact round-trip fails under the floating-point
arithmetic the source uses.  The value `2^1020` is a finite binary64
value and "km2" a valid unit, yet `convert_area` over binary64 multiplies
`2^1020` by `10^6`, overflowing to infinity, and infinity divided by
`10^6` stays infinite, so the result is not the input. -/
theorem C2_float_roundtrip_counterexample :
    reprDouble ((2 : ℚ) ^ 1020)
    ∧ convert_area_f64 (.finite ((2 : ℚ) ^ 1020)) "km2" "km2" = .ok .inf
    ∧ F64.inf ≠ F64.finite ((2 : ℚ) ^ 1020) := by
  refine ⟨⟨2 ^ 49, 971, by norm_num, by norm_num, ?_, ?_⟩, ?_, by simp⟩
  · push_cast
    rw [show ((971 : ℤ)) = ((971 : ℕ) : ℤ) from rfl, zpow_natCast]
    norm_num
  · rw [abs_of_nonneg (by positivity)]
    norm_num [maxDouble]
  · have hs : strLower "km2" = "km2" := by decide
    have hl : factorsF64.lookup (strLower "km2") = some (.finite 1000000) := by
      rw [hs]; simp [factorsF64, List.lookup]
    simp only [convert_area_f64, hl]
    have hm : fmul (.finite ((2 : ℚ) ^ 1020)) (.finite 1000000) = .inf := by
      simp only [fmul, rnF64]
      rw [if_pos (by norm_num)]
    rw [hm]
    simp only [fdiv]
    rw [if_neg (by norm_num), if_pos (by norm_num)]

/-- C2 amended: for every value `v` and each valid unit `u`,
`convert_area v u u = v` holds in exact rational arithmetic: the
conversion multiplies and divides by the same nonzero factor.  Under the
binary64 arithmetic of the source the identity is only approximate and
can fail outright (see the counterexample above). -/
theorem C2_convert_area_identity_roundtrip (v : ℚ) :
    convert_area v "m2" "m2" = .ok v ∧ convert_area v "km2" "km2" = .ok v ∧
    convert_area v "acre" "acre" = .ok v ∧
    convert_area v "hectare" "hectare" = .ok v := by
  refine ⟨?_, ?_, ?_, ?_⟩
  · simp only [convert_area, lookup_m2]
    norm_num
  · simp only [convert_area, lookup_km2]
    norm_num
  · simp only [convert_area, lookup_acre, Except.ok.injEq]
    rw [mul_div_assoc, div_self (by norm_num), mul_one]
  · simp only [convert_area, lookup_hectare]
    norm_num

/-- C3 counterexample: the caller table IS mutated by `load_dataset`.  On a
frame whose Ecosystem column has dtype "object", the in-place coercion
leaves the caller holding a frame different from the one supplied (its
Ecosystem dtype is now "category"), refuting the no-mutation claim. -/
theorem C3_no_mutation_counterexample :
    load_dataset (fun _ => objDf) none (some objDf)
        = .ok (callerTableAfterCoercion objDf)
    ∧ callerTableAfterCoercion objDf ≠ objDf :=
  ⟨rfl, by decide⟩

/-- C3 amended: the three functions may mutate the caller table in place,
but only by coercing the dtypes of its Ecosystem and Season columns to
categorical: column names, all cell values, and every other column are
unchanged, and each function merely returns the coerced frame, retaining
no further effect. -/
theorem C3_mutation_only_dtype_coercion (rc : String → DataFrame)
    (df : DataFrame) :
    (callerTableAfterCoercion df).colNames = df.colNames
    ∧ (∀ c, colValues (callerTableAfterCoercion df) c = colValues df c)
    ∧ (∀ c, c ≠ "Ecosystem" → c ≠ "Season" →
        (callerTableAfterCoercion df).col? c = df.col? c)
    ∧ load_dataset rc none (some df) = .ok (callerTableAfterCoercion df)
    ∧ group_dataset rc none (some df) none
        = .ok (.table (callerTableAfterCoercion df))
    ∧ visualize_dataset rc none (some df) none
        = .ok (callerTableAfterCoercion df,
            [.scatter "P_conc" "Ca_conc" none,
             .scatter "P_conc" "flux_gm2yr" none]) :=
  ⟨coerceCats_colNames df, fun c => coerceCats_colValues df c,
   fun _ hE hS => coerceCats_col?_other df hE hS, rfl, rfl, rfl⟩

/-- Witness for the amended C3 at a concrete frame. -/
theorem C3_mutation_only_dtype_coercion_witness :
    colValues (callerTableAfterCoercion objDf) "Ecosystem"
        = colValues objDf "Ecosystem"
    ∧ (callerTableAfterCoercion objDf).colNames = objDf.colNames :=
  ⟨(C3_mutation_only_dtype_coercion (fun _ => objDf) objDf).2.1 "Ecosystem",
   (C3_mutation_only_dtype_coercion (fun _ => objDf) objDf).1⟩

/-- C4 counterexample: `convert_area 2 "acre" "m2"` is exactly
`2 * 4046.8564224 = 8093.7128448`, not the claimed `8093.7128432`; the gap
is `1.6e-6`, orders of magnitude beyond double-precision tolerance at this
magnitude. -/
theorem C4_convert_area_acre_counterexample :
    convert_area 2 "acre" "m2" = .ok 8093.7128448
    ∧ (8093.7128448 : ℚ) ≠ 8093.7128432
    ∧ |(8093.7128448 : ℚ) - 8093.7128432| = 16 / 10000000 := by
  refine ⟨?_, by norm_num, by norm_num⟩
  simp only [convert_area, lookup_acre, lookup_m2, Except.ok.injEq]
  norm_num

/-- C4 amended: `convert_area 2 "acre" "m2"` equals `8093.7128448` exactly,
the product of 2 and the fixed factor 4046.8564224. -/
theorem C4_convert_area_acre_exact :
    convert_area 2 "acre" "m2" = .ok 8093.7128448 := by
  simp only [convert_area, lookup_acre, lookup_m2, Except.ok.injEq]
  norm_num

/-- C5: `convert_area` succeeds exactly when both units, lowercased, lie in
the recognized set m2/km2/acre/hectare; in particular it raises the
validation error for the unit "furlong" and succeeds for the casings "M2"
and "Hectare". -/
theorem C5_convert_area_unit_validation :
    (∀ (v : ℚ) (fu tu : String),
      (convert_area v fu tu).isOk = true
        ↔ strLower fu ∈ specUnits ∧ strLower tu ∈ specUnits)
    ∧ convert_area 1 "furlong" "m2"
        = .error "Units must be one of: m2, km2, hectare, acre"
    ∧ (convert_area 1 "M2" "Hectare").isOk = true := by
  refine ⟨fun v fu tu => ?_, by decide, by decide⟩
  rw [← lookup_isSome_iff, ← lookup_isSome_iff]
  simp only [convert_area]
  rcases hf : factors_to_m2.lookup (strLower fu) with _ | f <;>
    rcases ht : factors_to_m2.lookup (strLower tu) with _ | t <;>
      simp [hf, ht, Except.isOk, Except.toBool]

/-- C6 counterexample: `group_by=""` is non-None and names no column, yet
`group_dataset` raises nothing and returns the coerced table, because the
grouping branch tests Python truthiness, which the empty string fails. -/
theorem C6_nonexistent_column_counterexample :
    (some "" ≠ (none : Option String))
    ∧ "" ∉ sampleDf.colNames
    ∧ group_dataset (fun _ => sampleDf) none (some sampleDf) (some "")
        = .ok (.table (coerceCats sampleDf)) :=
  ⟨by decide, by decide, rfl⟩

/-- C6 amended: for every NON-EMPTY `group_by` string that is not a column
of the table, `group_dataset` fails with the validation error. -/
theorem C6_nonempty_nonexistent_column_error (rc : String → DataFrame)
    (df : DataFrame) (g : String) (hg : g ≠ "") (hmem : g ∉ df.colNames) :
    group_dataset rc none (some df) (some g)
      = .error "group_by must be a column in DataFrame." := by
  have ht : truthyStr (some g) = true := by simp [truthyStr, hg]
  have hm : g ∉ (coerceCats df).colNames := by
    rw [coerceCats_colNames]; exact hmem
  simp [group_dataset, group_dataset.afterLoad, ht, hm]

/-- Witness for the amended C6 at a concrete frame and column name. -/
theorem C6_nonempty_nonexistent_column_error_witness :
    group_dataset (fun _ => sampleDf) none (some sampleDf) (some "Foo")
      = .error "group_by must be a column in DataFrame." :=
  C6_nonempty_nonexistent_column_error (fun _ => sampleDf) sampleDf "Foo"
    (by decide) (by decide)

/-- C7: `load_dataset` raises the configuration error when called with
neither path nor table, and reads the table from the path when only a path
is given. -/
theorem C7_load_dataset_config_error :
    (∀ rc : String → DataFrame,
      load_dataset rc none none
        = .error "Provide either a CSV file path or a DataFrame.")
    ∧ (∀ (rc : String → DataFrame) (p : String),
      load_dataset rc (some p) none = .ok (coerceCats (rc p))) :=
  ⟨fun _ => rfl, fun _ _ => rfl⟩

/-- C8: `load_dataset` returns the coerced frame: Ecosystem and Season
columns, when present, become categorical with their values preserved,
absent ones are skipped, and every other column is returned untouched. -/
theorem C8_load_dataset_categorical_coercion (rc : String → DataFrame)
    (df : DataFrame) :
    load_dataset rc none (some df) = .ok (coerceCats df)
    ∧ (∀ c, c ≠ "Ecosystem" → c ≠ "Season" →
        (coerceCats df).col? c = df.col? c)
    ∧ (∀ col, df.col? "Ecosystem" = some col →
        (coerceCats df).col? "Ecosystem"
          = some (Column.mk "category" col.values))
    ∧ (∀ col, df.col? "Season" = some col →
        (coerceCats df).col? "Season" = some (Column.mk "category" col.values))
    ∧ (df.col? "Ecosystem" = none → (coerceCats df).col? "Ecosystem" = none)
    ∧ (df.col? "Season" = none → (coerceCats df).col? "Season" = none) :=
  ⟨rfl, fun _ hE hS => coerceCats_col?_other df hE hS,
    fun _ h => coerceCats_col?_eco df h, fun _ h => coerceCats_col?_sea df h,
    coerceCats_col?_eco_none df, coerceCats_col?_sea_none df⟩

/-- Witness for C8 at a concrete frame. -/
theorem C8_load_dataset_categorical_coercion_witness :
    (coerceCats sampleDf).col? "P_conc" = sampleDf.col? "P_conc"
    ∧ (coerceCats sampleDf).col? "Ecosystem"
        = some (Column.mk "category"
            [Value.str "Forest", Value.str "Wetland", Value.str "Forest"]) :=
  ⟨(C8_load_dataset_categorical_coercion (fun _ => sampleDf) sampleDf).2.1
      "P_conc" (by decide) (by decide),
   (C8_load_dataset_categorical_coercion (fun _ => sampleDf) sampleDf).2.2.1
      (Column.mk "object" [Value.str "Forest", Value.str "Wetland",
        Value.str "Forest"]) (by decide)⟩

/-- C9: the reachable fixed-column `visualize_dataset` raises the
validation error whenever `group_by` is none of "Ecosystem", "Season",
None, for every supplied table. -/
theorem C9_visualize_group_by_validation (rc : String → DataFrame)
    (df : DataFrame) (gb : Option String) (h1 : gb ≠ some "Ecosystem")
    (h2 : gb ≠ some "Season") (h3 : gb ≠ none) :
    visualize_dataset rc none (some df) gb
      = .error "group_by must be Ecosystem, Season, or None" := by
  simp [visualize_dataset, visualize_dataset.afterLoad, h1, h2, h3]

/-- Witness for C9 at a concrete frame and an off-list column. -/
theorem C9_visualize_group_by_validation_witness :
    visualize_dataset (fun _ => sampleDf) none (some sampleDf)
        (some "P_conc")
      = .error "group_by must be Ecosystem, Season, or None" :=
  C9_visualize_group_by_validation (fun _ => sampleDf) sampleDf
    (some "P_conc") (by decide) (by decide) (by decide)

/-- C10: `group_dataset` with `group_by=""` returns the coerced table for
every frame and raises no error, because the grouping branch is guarded by
Python truthiness and the empty string is falsy. -/
theorem C10_group_dataset_empty_string (rc : String → DataFrame)
    (df : DataFrame) :
    group_dataset rc none (some df) (some "")
      = .ok (.table (coerceCats df)) := rfl
